import Mathlib

/-!
Shallow embedding of the cube-alarm frontend core (React `App.tsx` and its
components), verified against the repository's natural-language spec.

The repository ships two revisions of the frontend files; where the two
revisions of a handler differ, both are embedded, the current (later)
revision under the plain name and the earlier one with a `V1` suffix.
The backend server is not part of the source tree; the one backend fact a
claim needs (the shape of the `alarm_triggered` push event) is modelled
from the spec and marked as such.
-/

namespace CubeAlarm

/-- The `Alarm` record of `App.tsx` (`interface Alarm`). -/
structure Alarm where
  id : String
  time : String
  label : String
  enabled : Bool
  days : List String
  requires_cube_solve : Bool
  is_active : Option Bool
deriving Repr, DecidableEq

/-- The `CubeState` record of `App.tsx` (`interface CubeState`). -/
structure CubeState where
  connected : Bool
  solved : Bool
  lastMove : String
deriving Repr, DecidableEq

/-- The client state the claims range over: the alarm list, the
active-alarm slot (`activeAlarm`, `null` when idle) and the cube state. -/
structure AppState where
  alarms : List Alarm
  activeAlarm : Option Alarm
  cubeState : CubeState
deriving Repr, DecidableEq

/-- The apostrophe character, used for prime moves. -/
def primeChar : Char := Char.ofNat 39

/-- `moveStr` as built by the `cube_move` handler:
`face + (direction === 'prime' ? apostrophe : '')`. -/
def moveStr (face direction : String) : String :=
  face ++ (if direction = "prime" then String.singleton primeChar else "")

/-- `socket.on('cube_connected')`: `setCubeState(prev => ({...prev,
connected: data.connected}))` (identical in both revisions). -/
def cubeConnectedStep (s : AppState) (connected : Bool) : AppState :=
  { s with cubeState := { s.cubeState with connected := connected } }

/-- `socket.on('cube_move')`, current revision: sets `connected: true` and
`lastMove`, and deliberately does not touch `solved`
("Don't automatically set solved=false - let solved events control this"). -/
def cubeMoveStep (s : AppState) (face direction : String) : AppState :=
  { s with cubeState :=
    { s.cubeState with connected := true, lastMove := moveStr face direction } }

/-- `socket.on('cube_move')`, earlier revision: sets `connected: true`,
`lastMove`, and also `solved: false`. -/
def cubeMoveStepV1 (s : AppState) (face direction : String) : AppState :=
  { s with cubeState :=
    { s.cubeState with
        connected := true
        lastMove := moveStr face direction
        solved := false } }

/-- `handleStopAlarm`: POSTs `/api/alarms/stop` and, when the response is
ok, `setActiveAlarm(null)`. The response outcome is passed in explicitly. -/
def handleStopAlarm (s : AppState) (responseOk : Bool) : AppState :=
  if responseOk then { s with activeAlarm := none } else s

/-- `handleResetCubeState`: POSTs `/api/cube/reset` and, when the response
is ok, `setCubeState(prev => ({...prev, solved: true}))`. -/
def handleResetCubeState (s : AppState) (responseOk : Bool) : AppState :=
  if responseOk then
    { s with cubeState := { s.cubeState with solved := true } }
  else s

/-- `handleToggleAlarm`: POSTs `/api/alarms/{id}/toggle` and, when the
response is ok, reloads the alarm list (`loadAlarms` replaces `alarms`
with the list the server returns, passed in here as `reloaded`). It never
touches `activeAlarm` or `cubeState`. -/
def handleToggleAlarm (s : AppState) (_id : String) (_enabled : Bool)
    (reloaded : List Alarm) (responseOk : Bool) : AppState :=
  if responseOk then { s with alarms := reloaded } else s

/-- A run of decimal digits read as a number; `none` when the characters
are not all digits or the run is empty. -/
def parseDigits (cs : List Char) : Option Int :=
  if cs.isEmpty || !cs.all Char.isDigit then none
  else some (cs.foldl (fun a c => a * 10 + ((c.toNat : Int) - 48)) 0)

/-- Gregorian leap year. -/
def isLeapYear (y : Int) : Bool :=
  y % 4 == 0 && (y % 100 != 0 || y % 400 == 0)

/-- Number of days in a month. -/
def daysInMonth (y m : Int) : Int :=
  if m = 2 then (if isLeapYear y then 29 else 28)
  else if m = 4 ∨ m = 6 ∨ m = 9 ∨ m = 11 then 30
  else 31

/-- Days from 1970-01-01 to the civil date `y-m-d` (standard civil-days
computation). -/
def daysFromCivil (y m d : Int) : Int :=
  let yA := if m ≤ 2 then y - 1 else y
  let era := Int.ediv yA 400
  let yoe := yA - era * 400
  let mp := Int.emod (m + 9) 12
  let doy := Int.ediv (153 * mp + 2) 5 + d - 1
  let doe := yoe * 365 + Int.ediv yoe 4 - Int.ediv yoe 100 + doy
  era * 146097 + doe - 719468

/-- Model of JS `new Date(s).getTime()` on the input shapes the frontend
feeds it. A string parses only when it begins with an ISO calendar date
`YYYY-MM-DD`, optionally followed by a time `THH:MM` or `THH:MM:SS`; the
result is the UTC epoch in milliseconds. A bare clock string such as
`"07:00"` — the shape of `Alarm.time` — is an Invalid Date in JS, whose
`getTime()` is NaN, modelled as `none`. -/
def jsNewDateGetTime (s : String) : Option Int :=
  match s.toList with
  | y1 :: y2 :: y3 :: y4 :: '-' :: m1 :: m2 :: '-' :: d1 :: d2 :: rest => do
    let y ← parseDigits [y1, y2, y3, y4]
    let m ← parseDigits [m1, m2]
    let d ← parseDigits [d1, d2]
    if 1 ≤ m ∧ m ≤ 12 ∧ 1 ≤ d ∧ d ≤ daysInMonth y m then
      let dayMs := daysFromCivil y m d * 86400000
      match rest with
      | [] => some dayMs
      | 'T' :: h1 :: h2 :: ':' :: n1 :: n2 :: [] => do
        let h ← parseDigits [h1, h2]
        let n ← parseDigits [n1, n2]
        if h ≤ 23 ∧ n ≤ 59 then some (dayMs + h * 3600000 + n * 60000) else none
      | 'T' :: h1 :: h2 :: ':' :: n1 :: n2 :: ':' :: c1 :: c2 :: [] => do
        let h ← parseDigits [h1, h2]
        let n ← parseDigits [n1, n2]
        let c ← parseDigits [c1, c2]
        if h ≤ 23 ∧ n ≤ 59 ∧ c ≤ 59 then
          some (dayMs + h * 3600000 + n * 60000 + c * 1000)
        else none
      | _ => none
    else none
  | _ => none

/-- The stop condition evaluated by the App-level `cube_solved` handler of
the current revision: `alarmAge = Date.now() - new Date(activeAlarm.time).getTime()`
and stop when `alarmAge >= 5000`. A NaN age (unparseable `time`) compares
false. -/
def appSolveStopCondition (a : Alarm) (now : Int) : Bool :=
  a.requires_cube_solve &&
    (match jsNewDateGetTime a.time with
     | none => false
     | some t => decide (5000 ≤ now - t))

/-- The stop condition evaluated by the `ActiveAlarm` component's solve
effect: `alarmAge = Date.now() - alarmStartTime` (the mount-time
`useState(Date.now())`) and stop when `alarmAge >= 5000`. -/
def effectSolveStopCondition (a : Alarm) (now startTime : Int) : Bool :=
  a.requires_cube_solve && decide (5000 ≤ now - startTime)

/-- The solve-based stop condition the spec mandates: age measured from
the session's start time. -/
def specSolveStopCondition (a : Alarm) (now sessionStart : Int) : Bool :=
  a.requires_cube_solve && decide (5000 ≤ now - sessionStart)

/-- `socket.on('cube_solved')`, current revision, composed with the
`ActiveAlarm` component's solve effect that runs on the re-render the
handler causes. The handler sets `solved: true`, then — when an active
alarm requires a cube solve — may call `handleStopAlarm` with the
App-level age check; the effect then re-evaluates on the resulting state
(the component is only mounted while `activeAlarm` is set) and may call
`handleStopAlarm` with its own age check. Returns the next state and the
number of stop requests issued. `now` is `Date.now()` at event arrival,
`startTime` the `alarmStartTime` captured when the session began, and
`stopOk` the stop-request outcome. -/
def cubeSolvedStep (s : AppState) (now startTime : Int) (stopOk : Bool) :
    AppState × Nat :=
  let s1 := { s with cubeState := { s.cubeState with solved := true } }
  match s1.activeAlarm with
  | none => (s1, 0)
  | some a =>
    if appSolveStopCondition a now then
      let s2 := handleStopAlarm s1 stopOk
      match s2.activeAlarm with
      | none => (s2, 1)
      | some a2 =>
        if effectSolveStopCondition a2 now startTime then
          (handleStopAlarm s2 stopOk, 2)
        else (s2, 1)
    else if effectSolveStopCondition a now startTime then
      (handleStopAlarm s1 stopOk, 1)
    else (s1, 0)

/-- The payload of the `alarm_triggered` push event, as destructured by the
current revision's handler: `{ alarm: Alarm, timestamp: string }`. -/
structure AlarmTriggeredPayload where
  alarm : Alarm
  timestamp : String
deriving Repr, DecidableEq

/-- Modelled from the spec: the backend EventBroadcaster (its code is not
under the source tree) publishes `alarm_triggered{alarm, timestamp}`
carrying the triggering alarm record and the trigger timestamp. -/
def publishAlarmTriggered (a : Alarm) (ts : String) : AlarmTriggeredPayload :=
  { alarm := a, timestamp := ts }

/-- `socket.on('alarm_triggered')`, current revision:
`setActiveAlarm({...data.alarm, is_active: true})`. -/
def alarmTriggeredStep (s : AppState) (data : AlarmTriggeredPayload) : AppState :=
  { s with activeAlarm := some { data.alarm with is_active := some true } }

/-- `socket.on('alarm_stopped')`: `setActiveAlarm(null)`. -/
def alarmStoppedStep (s : AppState) : AppState :=
  { s with activeAlarm := none }

/-- `handleDeleteAlarm`: DELETEs the alarm and, when the response is ok,
reloads the alarm list; never touches `activeAlarm` or `cubeState`. -/
def handleDeleteAlarm (s : AppState) (_id : String) (reloaded : List Alarm)
    (responseOk : Bool) : AppState :=
  if responseOk then { s with alarms := reloaded } else s

/-- `handleSaveAlarm`: POSTs or PUTs the alarm and, when the response is
ok, reloads the alarm list; never touches `activeAlarm` or `cubeState`. -/
def handleSaveAlarm (s : AppState) (reloaded : List Alarm)
    (responseOk : Bool) : AppState :=
  if responseOk then { s with alarms := reloaded } else s

/-- The operations that can hit the client state: the five push-channel
events as handled by the current revision (with the `ActiveAlarm` solve
effect folded into `cubeSolved`), and the user-command handlers. External
inputs (event payloads, response outcomes, the reloaded alarm lists, the
clock readings) are carried in the operation. -/
inductive AppOp where
  | cubeConnectedOp (connected : Bool)
  | cubeMoveOp (face direction : String)
  | cubeSolvedOp (now startTime : Int) (stopOk : Bool)
  | alarmTriggeredOp (data : AlarmTriggeredPayload)
  | alarmStoppedOp
  | manualStopOp (responseOk : Bool)
  | toggleAlarmOp (id : String) (enabled : Bool) (reloaded : List Alarm)
      (responseOk : Bool)
  | deleteAlarmOp (id : String) (reloaded : List Alarm) (responseOk : Bool)
  | saveAlarmOp (reloaded : List Alarm) (responseOk : Bool)
  | resetCubeOp (responseOk : Bool)
deriving Repr, DecidableEq

/-- One step of the client: dispatch an operation to its handler. -/
def appStep (s : AppState) : AppOp → AppState
  | .cubeConnectedOp c => cubeConnectedStep s c
  | .cubeMoveOp f d => cubeMoveStep s f d
  | .cubeSolvedOp now t0 ok => (cubeSolvedStep s now t0 ok).1
  | .alarmTriggeredOp data => alarmTriggeredStep s data
  | .alarmStoppedOp => alarmStoppedStep s
  | .manualStopOp ok => handleStopAlarm s ok
  | .toggleAlarmOp id en reloaded ok => handleToggleAlarm s id en reloaded ok
  | .deleteAlarmOp id reloaded ok => handleDeleteAlarm s id reloaded ok
  | .saveAlarmOp reloaded ok => handleSaveAlarm s reloaded ok
  | .resetCubeOp ok => handleResetCubeState s ok

/-- The operations that end a ringing session: the two stop paths (manual
stop — ordinary or emergency button — and the solve path inside the
`cube_solved` event) and the server-announced `alarm_stopped` event. -/
def isStopPath : AppOp → Bool
  | .manualStopOp _ => true
  | .cubeSolvedOp _ _ _ => true
  | .alarmStoppedOp => true
  | _ => false

/-- Hexadecimal digit test. -/
def isHexDigitChar (c : Char) : Bool :=
  c.isDigit || ('a' ≤ c && c ≤ 'f') || ('A' ≤ c && c ≤ 'F')

/-- Value of a hexadecimal digit. -/
def hexVal (c : Char) : Int :=
  if c.isDigit then (c.toNat : Int) - 48
  else if 'a' ≤ c && c ≤ 'f' then (c.toNat : Int) - 87
  else (c.toNat : Int) - 55

/-- Model of JS `parseInt(s)` with no radix argument: skip leading
whitespace, accept an optional sign, then — when what follows starts with
`0x` or `0X` — read the longest run of hex digits as a base-16 number,
otherwise the longest run of decimal digits as a base-10 number; NaN —
modelled as `none` — when the run is empty. -/
def jsParseInt (s : String) : Option Int :=
  let cs := s.toList.dropWhile Char.isWhitespace
  let signed : Int × List Char :=
    match cs with
    | '-' :: rest => (-1, rest)
    | '+' :: rest => (1, rest)
    | _ => (1, cs)
  match signed.2 with
  | '0' :: 'x' :: rest =>
    let digits := rest.takeWhile isHexDigitChar
    if digits.isEmpty then none
    else some (signed.1 * digits.foldl (fun a c => a * 16 + hexVal c) 0)
  | '0' :: 'X' :: rest =>
    let digits := rest.takeWhile isHexDigitChar
    if digits.isEmpty then none
    else some (signed.1 * digits.foldl (fun a c => a * 16 + hexVal c) 0)
  | _ =>
    let digits := signed.2.takeWhile Char.isDigit
    if digits.isEmpty then none
    else some (signed.1 *
      digits.foldl (fun a c => a * 10 + ((c.toNat : Int) - 48)) 0)

/-- JS `hour >= 12` where `hour` may be NaN: NaN comparisons are false. -/
def jsGE12 : Option Int → Bool
  | none => false
  | some h => decide (12 ≤ h)

/-- JS `hour % 12 || 12` where `hour` may be NaN: `%` is the remainder
with the dividend's sign (`Int.tmod`), and the falsy values `0` and NaN
fall through to `12`. -/
def jsMod12Or12 : Option Int → Int
  | none => 12
  | some h => if Int.tmod h 12 = 0 then 12 else Int.tmod h 12

/-- Split a character list at every occurrence of `sep`, keeping empty
pieces — the semantics of JS `String.prototype.split` with a single-character
separator. -/
def jsSplitChar (sep : Char) : List Char → List (List Char)
  | [] => [[]]
  | c :: rest =>
    match jsSplitChar sep rest with
    | [] => [[]]
    | piece :: pieces =>
      if c = sep then [] :: piece :: pieces else (c :: piece) :: pieces

/-- Model of JS `s.split(sep)` for a one-character separator. -/
def jsSplit (sep : Char) (s : String) : List String :=
  (jsSplitChar sep s.toList).map String.mk

/-- `formatAlarmTime` of the current `ActiveAlarm` component. The JS
guard `if (!time || typeof time !== 'string') return 'Unknown Time'`
catches an `undefined` or non-string argument — modelled as `none` — and,
through falsiness, also the empty string. Otherwise split on `:`;
anything but exactly two parts is returned as-is; else render
`displayHour:minutes ampm` from `parseInt(hours)`. -/
def formatAlarmTime : Option String → String
  | none => "Unknown Time"
  | some time =>
    if time = "" then "Unknown Time"
    else
      match jsSplit ':' time with
      | [hours, minutes] =>
        let hour := jsParseInt hours
        let ampm := if jsGE12 hour then "PM" else "AM"
        let displayHour := jsMod12Or12 hour
        toString displayHour ++ ":" ++ minutes ++ " " ++ ampm
      | _ => time

/-- The `AlarmForm` state fields submitted by `handleSubmit`. -/
structure FormData where
  time : String
  label : String
  days : List String
  enabled : Bool
  requires_cube_solve : Bool
deriving Repr, DecidableEq

/-- What a form submission did: blocked by validation (an alert, no
callback), or invoked `onSave`, or invoked `onSubmit`, with the submitted
form data. -/
inductive SubmitResult where
  | blocked
  | saved (d : FormData)
  | submitted (d : FormData)
deriving Repr, DecidableEq

/-- Model of JS `String.prototype.trim()`: strip whitespace from both
ends. -/
def jsTrim (s : String) : String :=
  String.mk (((s.toList.dropWhile Char.isWhitespace).reverse.dropWhile
    Char.isWhitespace).reverse)

/-- `AlarmForm.handleSubmit`: block (alert) when the trimmed label is
empty or no day is selected; otherwise call `onSave` when provided, else
`onSubmit` when provided. `hasOnSave`/`hasOnSubmit` say which callback
props were passed. -/
def handleSubmit (d : FormData) (hasOnSave hasOnSubmit : Bool) : SubmitResult :=
  if jsTrim d.label = "" then .blocked
  else if d.days.length = 0 then .blocked
  else if hasOnSave then .saved d
  else if hasOnSubmit then .submitted d
  else .blocked

/-- The ordinary "Stop Alarm" button's action in `ActiveAlarm`: its
`onClick` is the `onStop` prop, which `App` binds to `handleStopAlarm`. -/
def stopButtonAction : AppState → Bool → AppState := handleStopAlarm

/-- The "Emergency Stop" button's action in `ActiveAlarm`: the same
`onStop` prop, also bound to `handleStopAlarm`. -/
def emergencyStopButtonAction : AppState → Bool → AppState := handleStopAlarm

/-- A sample alarm for concrete evaluations: the `time` field has the
`"HH:MM"` shape every alarm carries. -/
def alarmA : Alarm :=
  { id := "a1", time := "07:00", label := "Wake up", enabled := true,
    days := ["monday"], requires_cube_solve := true, is_active := some true }

/-- A sample cube state: connected, not solved. -/
def cubeA : CubeState := { connected := true, solved := false, lastMove := "" }

/-- A sample client state with a ringing session for `alarmA`. -/
def stateRinging : AppState :=
  { alarms := [alarmA], activeAlarm := some alarmA, cubeState := cubeA }

end CubeAlarm

namespace CubeAlarm

/-- C4: for every cube-state value, processing a move notification yields
a state with `connected = true` — in the current revision's handler and in
the earlier revision's — with no prior connect event needed (the starting
state is arbitrary, disconnected included). -/
theorem claim_C4_move_implies_connected (s : AppState) (face direction : String) :
    (cubeMoveStep s face direction).cubeState.connected = true ∧
    (cubeMoveStepV1 s face direction).cubeState.connected = true :=
  ⟨rfl, rfl⟩

/-- C7: a successful `reset()` (`handleResetCubeState` with an ok
response) sets the cube state's `solved` flag to `true` — no solved
notification is involved, the starting state is arbitrary — and changes
nothing else: `connected`, `lastMove`, the alarm list and the active
alarm are untouched. -/
theorem claim_C7_reset_sets_solved_only (s : AppState) :
    (handleResetCubeState s true).cubeState.solved = true ∧
    (handleResetCubeState s true).cubeState.connected = s.cubeState.connected ∧
    (handleResetCubeState s true).cubeState.lastMove = s.cubeState.lastMove ∧
    (handleResetCubeState s true).alarms = s.alarms ∧
    (handleResetCubeState s true).activeAlarm = s.activeAlarm :=
  ⟨rfl, rfl, rfl, rfl, rfl⟩

/-- C3: the ordinary stop control and the emergency stop control invoke
the same stop operation (`handleStopAlarm`), and a successful manual stop
clears the active alarm for every state — whatever the cube's solved
state and however much time has elapsed (the stop operation reads
neither). -/
theorem claim_C3_manual_stop_always_stops (s : AppState) :
    stopButtonAction = emergencyStopButtonAction ∧
    (stopButtonAction s true).activeAlarm = none ∧
    (stopButtonAction s true).cubeState = s.cubeState ∧
    (stopButtonAction s true).alarms = s.alarms :=
  ⟨rfl, rfl, rfl, rfl⟩

/-- C8: the published `alarm_triggered` payload carries both the
triggering alarm record and the trigger timestamp, and the client handler
makes that alarm the active alarm (marked `is_active`), touching nothing
else. -/
theorem claim_C8_alarm_triggered_event (a : Alarm) (ts : String) (s : AppState) :
    (publishAlarmTriggered a ts).alarm = a ∧
    (publishAlarmTriggered a ts).timestamp = ts ∧
    (alarmTriggeredStep s (publishAlarmTriggered a ts)).activeAlarm
      = some { a with is_active := some true } ∧
    (alarmTriggeredStep s (publishAlarmTriggered a ts)).alarms = s.alarms ∧
    (alarmTriggeredStep s (publishAlarmTriggered a ts)).cubeState = s.cubeState :=
  ⟨rfl, rfl, rfl, rfl, rfl⟩

/-- C2 (code bug, evaluated at the failing input): with the active alarm's
nominal `time` field `"07:00"`, a session started at `t0 = 0` and a solved
event at `now = 6000` ms, the App-level handler's age check — which
references `new Date(alarm.time)`, a NaN for a clock string — does not
fire, while the spec's check against the session start does: the code's
reference timestamp is the alarm's nominal `time` field, not the session
start. -/
theorem claim_C2_age_check_wrong_reference :
    jsNewDateGetTime alarmA.time = none ∧
    appSolveStopCondition alarmA 6000 = false ∧
    specSolveStopCondition alarmA 6000 0 = true :=
  ⟨rfl, rfl, rfl⟩

/-- C6: toggling an alarm's `enabled` flag — the ringing one included —
leaves the active-alarm session and the cube state exactly as they were,
for every response outcome; and across all client operations, only the
stop/solve paths can end a session. -/
theorem claim_C6_toggle_preserves_session (s : AppState) (id : String)
    (enabled : Bool) (reloaded : List Alarm) (ok : Bool) :
    (handleToggleAlarm s id enabled reloaded ok).activeAlarm = s.activeAlarm ∧
    (handleToggleAlarm s id enabled reloaded ok).cubeState = s.cubeState ∧
    (∀ op : AppOp, s.activeAlarm ≠ none →
       (appStep s op).activeAlarm = none → isStopPath op = true) := by
  refine ⟨by unfold handleToggleAlarm; split <;> rfl,
          by unfold handleToggleAlarm; split <;> rfl, ?_⟩
  intro op hne h
  cases op with
  | manualStopOp ok2 => rfl
  | cubeSolvedOp n t o => rfl
  | alarmStoppedOp => rfl
  | cubeConnectedOp c => exact absurd h hne
  | cubeMoveOp f d => exact absurd h hne
  | alarmTriggeredOp data => simp [appStep, alarmTriggeredStep] at h
  | toggleAlarmOp i e r o => cases o <;> exact absurd h hne
  | deleteAlarmOp i r o => cases o <;> exact absurd h hne
  | saveAlarmOp r o => cases o <;> exact absurd h hne
  | resetCubeOp o => cases o <;> exact absurd h hne

/-- Witness for C6 at a concrete ringing state: a toggle leaves the
session as it was, and the one operation that ends it here is a stop
path. -/
theorem claim_C6_witness :
    (handleToggleAlarm stateRinging "a1" false [] true).activeAlarm
      = stateRinging.activeAlarm ∧
    isStopPath AppOp.alarmStoppedOp = true :=
  ⟨(claim_C6_toggle_preserves_session stateRinging "a1" false [] true).1,
   (claim_C6_toggle_preserves_session stateRinging "a1" false [] true).2.2
     AppOp.alarmStoppedOp (by decide) rfl⟩

/-- C1: for a session over an alarm with `requires_cube_solve = true`
started at `t0` (the `ActiveAlarm` mount time), a solved event strictly
before `t0 + 5000` ms does not stop the session and issues no stop
request, while a solved event at or after `t0 + 5000` ms stops it exactly
once: one stop request, the session is cleared, and any further solved
event issues no stop at all. (`Alarm.time` is an `"HH:MM"` clock string,
so the App-level age check — `jsNewDateGetTime` of it is `none` — never
fires; the `ActiveAlarm` effect's session-start check decides.) -/
theorem claim_C1_solve_debounce (s : AppState) (a : Alarm) (now t0 : Int)
    (hA : s.activeAlarm = some a) (hReq : a.requires_cube_solve = true)
    (hTime : jsNewDateGetTime a.time = none) :
    (now < t0 + 5000 →
       (cubeSolvedStep s now t0 true).1.activeAlarm = some a ∧
       (cubeSolvedStep s now t0 true).2 = 0) ∧
    (t0 + 5000 ≤ now →
       (cubeSolvedStep s now t0 true).2 = 1 ∧
       (cubeSolvedStep s now t0 true).1.activeAlarm = none ∧
       ∀ now2 t02 : Int,
         (cubeSolvedStep (cubeSolvedStep s now t0 true).1 now2 t02 true).2 = 0) := by
  have happ : appSolveStopCondition a now = false := by
    simp [appSolveStopCondition, hTime]
  constructor
  · intro hlt
    have heff : effectSolveStopCondition a now t0 = false := by
      simp [effectSolveStopCondition, hReq]
      omega
    simp [cubeSolvedStep, hA, happ, heff]
  · intro hge
    have heff : effectSolveStopCondition a now t0 = true := by
      simp [effectSolveStopCondition, hReq]
      omega
    refine ⟨by simp [cubeSolvedStep, hA, happ, heff], ?_, ?_⟩
    · simp [cubeSolvedStep, hA, happ, heff, handleStopAlarm]
    · intro now2 t02
      simp [cubeSolvedStep, hA, happ, heff, handleStopAlarm]

/-- Witness for C1 at a concrete ringing state: a solved event 4 seconds
in does not clear the session; one 6 seconds in issues exactly one
stop. -/
theorem claim_C1_witness :
    (cubeSolvedStep stateRinging 4000 0 true).1.activeAlarm = some alarmA ∧
    (cubeSolvedStep stateRinging 6000 0 true).2 = 1 :=
  ⟨((claim_C1_solve_debounce stateRinging alarmA 4000 0 rfl rfl rfl).1
      (by norm_num)).1,
   ((claim_C1_solve_debounce stateRinging alarmA 6000 0 rfl rfl rfl).2
      (by norm_num)).1⟩

/-- C5: a move notification leaves `solved` unchanged (the current
revision's handler — the earlier revision reset it to `false`, see
`cubeMoveStepV1`), and across all client operations `solved` can become
true only through the explicit solved notification or a successful
`reset()`. -/
theorem claim_C5_move_leaves_solved (s : AppState) (face direction : String) :
    (cubeMoveStep s face direction).cubeState.solved = s.cubeState.solved ∧
    (∀ op : AppOp, (appStep s op).cubeState.solved = true →
       s.cubeState.solved = true ∨
       (∃ n t o, op = AppOp.cubeSolvedOp n t o) ∨ op = AppOp.resetCubeOp true) := by
  refine ⟨rfl, ?_⟩
  intro op h
  cases op with
  | cubeConnectedOp c => exact Or.inl h
  | cubeMoveOp f d => exact Or.inl h
  | cubeSolvedOp n t o => exact Or.inr (Or.inl ⟨n, t, o, rfl⟩)
  | alarmTriggeredOp data => exact Or.inl h
  | alarmStoppedOp => exact Or.inl h
  | manualStopOp o => cases o <;> exact Or.inl h
  | toggleAlarmOp i e r o => cases o <;> exact Or.inl h
  | deleteAlarmOp i r o => cases o <;> exact Or.inl h
  | saveAlarmOp r o => cases o <;> exact Or.inl h
  | resetCubeOp o =>
    cases o with
    | false => exact Or.inl h
    | true => exact Or.inr (Or.inr rfl)

/-- Witness for C5 at a concrete state whose cube is not solved: the
operation that turned `solved` on is one of the two sanctioned sources. -/
theorem claim_C5_witness :
    (appStep stateRinging (AppOp.resetCubeOp true)).cubeState.solved = true ∧
    (stateRinging.cubeState.solved = true ∨
      (∃ n t o, AppOp.resetCubeOp true = AppOp.cubeSolvedOp n t o) ∨
      AppOp.resetCubeOp true = AppOp.resetCubeOp true) :=
  ⟨rfl, (claim_C5_move_leaves_solved stateRinging "R" "prime").2
    (AppOp.resetCubeOp true) rfl⟩

/-- A list of characters spells the empty string exactly when it is
empty. -/
theorem string_mk_eq_empty_iff (l : List Char) : String.mk l = "" ↔ l = [] :=
  ⟨fun h => congrArg String.data h, fun h => h ▸ rfl⟩

/-- `jsTrim` returns the empty string exactly when every character of the
input is whitespace. -/
theorem jsTrim_eq_empty_iff (s : String) :
    jsTrim s = "" ↔ ∀ c ∈ s.toList, c.isWhitespace := by
  rw [jsTrim, string_mk_eq_empty_iff, List.reverse_eq_nil_iff,
    List.dropWhile_eq_nil_iff]
  constructor
  · intro h c hc
    rw [← List.takeWhile_append_dropWhile (p := Char.isWhitespace)
      (l := s.toList)] at hc
    rcases List.mem_append.mp hc with h1 | h2
    · exact List.mem_takeWhile_imp h1
    · exact h c (List.mem_reverse.mpr h2)
  · intro h x hx
    exact h x ((List.dropWhile_sublist _).subset (List.mem_reverse.mp hx))

/-- C10: the alarm form's submit handler invokes a save callback only
when the trimmed label is non-empty — i.e. the label has a non-whitespace
character — and the days list is non-empty; a blank label or an empty
days list always blocks submission, and whatever the callbacks, any saved
or submitted payload has a non-empty days list, so the form never creates
an alarm with an empty days set. -/
theorem claim_C10_form_submit_validation (d : FormData)
    (hasOnSave hasOnSubmit : Bool) :
    (handleSubmit d hasOnSave hasOnSubmit ≠ SubmitResult.blocked →
       jsTrim d.label ≠ "" ∧ d.days ≠ []) ∧
    (jsTrim d.label = "" ∨ d.days = [] →
       handleSubmit d hasOnSave hasOnSubmit = SubmitResult.blocked) ∧
    (∀ d2, handleSubmit d hasOnSave hasOnSubmit = SubmitResult.saved d2 ∨
           handleSubmit d hasOnSave hasOnSubmit = SubmitResult.submitted d2 →
       d2.days ≠ []) ∧
    (jsTrim d.label = "" ↔ ∀ c ∈ d.label.toList, c.isWhitespace) := by
  refine ⟨?_, ?_, ?_, jsTrim_eq_empty_iff d.label⟩
  · intro hne
    by_cases h1 : jsTrim d.label = ""
    · exact absurd (by simp [handleSubmit, h1]) hne
    by_cases h2 : d.days = []
    · exact absurd (by simp [handleSubmit, h2]) hne
    exact ⟨h1, h2⟩
  · rintro (h1 | h2)
    · simp [handleSubmit, h1]
    · simp [handleSubmit, h2]
  · intro d2 hd2
    by_cases h1 : jsTrim d.label = ""
    · simp [handleSubmit, h1] at hd2
    by_cases h2 : d.days = []
    · simp [handleSubmit, h2] at hd2
    have hdl : ¬ d.days.length = 0 := by simpa [List.length_eq_zero] using h2
    have hd2d : d2 = d := by
      unfold handleSubmit at hd2
      cases hasOnSave <;> cases hasOnSubmit <;>
        rcases hd2 with hs | hs <;> simp [h1, hdl] at hs <;> simp [hs]
    rw [hd2d]
    exact h2

/-- A concrete form state whose label is all whitespace. -/
def formBlank : FormData :=
  { time := "07:00"
    label := "   "
    days := ["monday"]
    enabled := true
    requires_cube_solve := true }

/-- Witness for C10 at a concrete blank-label form state: submission is
blocked, no callback runs. -/
theorem claim_C10_witness :
    jsTrim formBlank.label = "" ∧
    handleSubmit formBlank true false = SubmitResult.blocked :=
  ⟨rfl,
   (claim_C10_form_submit_validation formBlank true false).2.1 (Or.inl rfl)⟩

/-- C9 counterexample: the empty string does not split on `:` into two
parts, yet the program does not return it unchanged — the JS falsy guard
catches `""` and yields `"Unknown Time"`. -/
theorem claim_C9_counterexample :
    (jsSplit ':' "").length ≠ 2 ∧
    formatAlarmTime (some "") = "Unknown Time" ∧
    formatAlarmTime (some "") ≠ "" :=
  ⟨by decide, rfl, by decide⟩

/-- C9 (as amended): `formatAlarmTime` is total by construction (every
input is covered by one of the cases below, so no input throws): an
`undefined`/non-string argument — and the empty string, which the JS
falsy guard also catches — yields `"Unknown Time"`; any other string
that does not split on `:` into exactly two parts is returned unchanged;
and an `"H:MM"` string (first part parsing to an hour `0 ≤ h ≤ 23`)
renders in 12-hour form — hour 0 as 12 AM, hours 1–11 as themselves AM,
hour 12 as 12 PM, hours 13–23 as `h − 12` PM. -/
theorem claim_C9_formatAlarmTime_cases (t hs ms : String) (h : Int) :
    (formatAlarmTime none = "Unknown Time") ∧
    (formatAlarmTime (some "") = "Unknown Time") ∧
    (t ≠ "" → (jsSplit ':' t).length ≠ 2 → formatAlarmTime (some t) = t) ∧
    (jsSplit ':' t = [hs, ms] → jsParseInt hs = some h → 0 ≤ h → h ≤ 23 →
       formatAlarmTime (some t) =
         toString (if h = 0 then (12 : Int) else if h ≤ 12 then h else h - 12)
           ++ ":" ++ ms ++ " " ++ (if h < 12 then "AM" else "PM")) := by
  refine ⟨rfl, rfl, ?_, ?_⟩
  · intro hne hlen
    rcases hl : jsSplit ':' t with _ | ⟨a, _ | ⟨b, _ | ⟨c, rest⟩⟩⟩
    · simp [formatAlarmTime, hne, hl]
    · simp [formatAlarmTime, hne, hl]
    · exact absurd (by simp [hl]) hlen
    · simp [formatAlarmTime, hne, hl]
  · intro hsplit hparse h0 h23
    have hne : t ≠ "" := by
      intro he
      rw [he] at hsplit
      have := congrArg List.length hsplit
      simp [jsSplit, jsSplitChar] at this
    simp only [formatAlarmTime, if_neg hne]
    rw [hsplit]
    simp only [hparse]
    interval_cases h <;> rfl

/-- Witness for C9 at the concrete input `"0:30"`: hour 0 renders as
12 AM. -/
theorem claim_C9_witness :
    jsSplit ':' "0:30" = ["0", "30"] ∧ jsParseInt "0" = some 0 ∧
    formatAlarmTime (some "0:30") = "12:30 AM" :=
  ⟨rfl, rfl,
   ((claim_C9_formatAlarmTime_cases "0:30" "0" "30" 0).2.2.2 rfl rfl
     (by norm_num) (by norm_num)).trans rfl⟩

end CubeAlarm
